/-
  Verification of the telegram-web-app event-bridge library against its
  specification.

  Shallow embedding of the TypeScript sources:
    - `src/WebApp/WebApp.ts`        : `#versionCompare`, `#versionAtLeast`,
                                      `isVersionAtLeast`, `openInvoice`
    - `src/WebApp/Popup/Popup.ts`   : the `Popup` state machine
    - `src/WebApp/PopupButton`      : `WebAppPopupButton` validation
    - `TelegramWebApp` (orchestrator): `showPopup`, `showConfirm`,
                                      `openInvoice`, `switchInlineQuery`,
                                      `#onPopupClosed`, `#onInvoiceClosed`,
                                      `#onClipboardTextReceived`

  JavaScript strings are modelled as Lean `String`s (lengths count
  characters), `undefined`/`null` as `Option`, thrown exceptions as
  `Except`/an explicit error component, and the outbound transport as an
  explicit "posted event" component of each operation's result.
-/
import Mathlib

namespace TelegramWebApp

/-! ## JavaScript string primitives -/

/-- Whitespace as matched by the `\s`-based trimming regexes in the source
(restricted to the ASCII whitespace actually relevant to version strings). -/
def jsWhitespace (c : Char) : Bool :=
  c = ' ' || c = '\t' || c = '\n' || c = '\r' || c = '\x0c' || c = '\x0b'

/-- `String.trim` as JavaScript's `trim()` / `replace(/^\s+|\s+$/g, '')`:
drop leading and trailing whitespace. -/
def trimJS (s : String) : String :=
  ⟨((s.data.dropWhile jsWhitespace).reverse.dropWhile jsWhitespace).reverse⟩

def digitChar (c : Char) : Bool := '0' ≤ c && c ≤ '9'

/-- Value of a list of decimal digit characters. -/
def digitsToNat (ds : List Char) : Nat :=
  ds.foldl (fun acc c => 10 * acc + (c.toNat - '0'.toNat)) 0

/-- JavaScript `parseInt(s)` (base 10): skip leading whitespace, accept an
optional sign, read the longest decimal-digit prefix; `none` models `NaN`. -/
def parseIntJS (s : String) : Option Int :=
  let cs := s.data.dropWhile jsWhitespace
  match cs with
  | '-' :: rest =>
      let ds := rest.takeWhile digitChar
      if ds.isEmpty then none else some (-(digitsToNat ds : Int))
  | '+' :: rest =>
      let ds := rest.takeWhile digitChar
      if ds.isEmpty then none else some (digitsToNat ds : Int)
  | _ =>
      let ds := cs.takeWhile digitChar
      if ds.isEmpty then none else some (digitsToNat ds : Int)

/-- `parseInt(s) || 0`: `NaN` (and `0`, `-0`) collapse to `0`. -/
def parseIntOr0 (s : String) : Int :=
  match parseIntJS s with
  | none => 0
  | some n => n

/-! ## Version comparison (`WebApp.ts` `#versionCompare` / `#versionAtLeast`) -/

/-- JavaScript `split('.')` on a character list: `""` splits to `[""]`,
separators at the ends produce empty fields. -/
def splitOnDot : List Char → List (List Char)
  | [] => [[]]
  | c :: rest =>
      let r := splitOnDot rest
      if c = '.' then [] :: r
      else
        match r with
        | [] => [[c]]
        | h :: t => (c :: h) :: t

/-- The unit lists of `#versionCompare`: trim the version string, split on
`'.'`. -/
def versionUnits (v : String) : List String :=
  (splitOnDot (trimJS v).data).map fun cs => ⟨cs⟩

/-- The tail of the `#versionCompare` loop once `v2` has run out of units:
`p2` reads `undefined`, so `parseInt` gives `NaN`, collapsed to `0` by
`|| 0`. -/
def compareUnitsRight : List String → Int
  | [] => 0
  | u1 :: us1 =>
      if parseIntOr0 u1 = 0 then compareUnitsRight us1
      else if parseIntOr0 u1 > 0 then 1 else -1

/-- The tail of the `#versionCompare` loop once `v1` has run out of units:
`p1` reads `undefined`, hence `0`. -/
def compareUnitsLeft : List String → Int
  | [] => 0
  | u2 :: us2 =>
      if 0 = parseIntOr0 u2 then compareUnitsLeft us2
      else if 0 > parseIntOr0 u2 then 1 else -1

/-- The comparison loop of `#versionCompare`, rendered recursively: at each
index `p := parseInt(unit) || 0`, with an index past the end of a list reading
`undefined` (so `parseInt` gives `NaN`, collapsed to `0`); the first unequal
pair decides the sign, equal pairs continue. -/
def compareUnits : List String → List String → Int
  | us1, [] => compareUnitsRight us1
  | [], us2 => compareUnitsLeft us2
  | u1 :: us1, u2 :: us2 =>
      if parseIntOr0 u1 = parseIntOr0 u2 then compareUnits us1 us2
      else if parseIntOr0 u1 > parseIntOr0 u2 then 1 else -1

/-- `WebApp.ts` `#versionCompare(v1, v2)`. -/
def versionCompare (v1 v2 : String) : Int :=
  compareUnits (versionUnits v1) (versionUnits v2)

/-- `WebApp.ts` `#versionAtLeast(version)` for a current version `cur`:
`#versionCompare(cur, version) >= 0`. -/
def versionAtLeast (cur version : String) : Bool :=
  versionCompare cur version ≥ 0

/-- `WebApp.isVersionAtLeast` simply delegates to `#versionAtLeast`. -/
def isVersionAtLeast (cur version : String) : Bool :=
  versionAtLeast cur version

/-- Modelled from the spec: `Version.isSuitableTo(target)` (the `Version`
class itself is absent from `src/`) — "parse both as SemanticVersion; compare
component-wise; returns true iff current ≥ target (lexicographic,
zero-padded)", which is exactly `#versionAtLeast` of `WebApp.ts`. -/
def isSuitableTo (cur target : String) : Bool :=
  versionAtLeast cur target

/-! Spec-side rendering of the claim: dot-separated components, missing
trailing and non-numeric components treated as 0, compared lexicographically
over the zero-padded sequences. -/

/-- The parsed component sequence of a version string (spec's
SemanticVersion; non-numeric components parse as 0 via `parseInt || 0`). -/
def versionComponents (v : String) : List Int :=
  (versionUnits v).map parseIntOr0

/-- Zero-pad a component sequence on the right to length `n`. -/
def padZeros (l : List Int) (n : Nat) : List Int :=
  l ++ List.replicate (n - l.length) 0

/-- Lexicographic `≥` on component sequences. -/
def lexGE : List Int → List Int → Bool
  | _, [] => true
  | [], _ :: _ => false
  | x :: xs, y :: ys => if x = y then lexGE xs ys else x > y

/-- Spec-side version comparison: `cur ≥ target` lexicographically over the
two component sequences zero-padded to a common length. -/
def specVersionGE (cur target : String) : Bool :=
  let c := versionComponents cur
  let t := versionComponents target
  let n := max c.length t.length
  lexGE (padZeros c n) (padZeros t n)

/-! ## Errors (`src/Errors`) -/

inductive WebAppError where
  | popupParamInvalid (msg : String)
  | popupOpened
  | methodUnsupported (method cur : String)
  | invoiceOpened
  | invoiceUrlInvalid
  | inlineModeDisabled
  | inlineQueryInvalid
  | chooseChatTypesInvalid
  | chooseChatTypeInvalid
deriving Repr, DecidableEq

/-! ## `WebAppPopupButton` (`src/WebApp/PopupButton`) -/

/-- `WebAppPopupButton.TYPES`, in declaration order. -/
def VALID_BUTTON_TYPES : List String := ["default", "ok", "close", "cancel", "destructive"]

/-- `TYPES_WITH_REQUIRED_TEXT = [TYPES.DEFAULT, TYPES.DESTRUCTIVE]`. -/
def TYPES_WITH_REQUIRED_TEXT : List String := ["default", "destructive"]

def MAX_ID_LENGTH : Nat := 64
def MAX_TEXT_LENGTH : Nat := 64

/-- The validated `#button` data of a `WebAppPopupButton`; `text` is only
assigned for the types that require it. -/
structure EventPopupButton where
  id : String
  type : String
  text : Option String
deriving Repr, DecidableEq

/-- A raw button configuration as passed to `new WebAppPopupButton(config)`;
`none` models a missing (`undefined`) field. -/
structure PopupButtonSrc where
  id : Option String
  type : Option String
  text : Option String
deriving Repr, DecidableEq

/-- `WebAppPopupButton`'s constructor chain `#setID(id).#setType(type).#setText(text)`:
`#setID` stringifies `id ?? ''` and rejects ids longer than 64; `#setType`
rejects a type outside `VALID_BUTTON_TYPES` (an absent type is not in the
list); `#setText` returns without storing text for types that do not require
it, and otherwise trims `text ?? ''`, rejecting an empty or over-64 result.
An error models the `WebAppPopupParamInvalidError` thrown mid-chain. -/
def validateButton (config : PopupButtonSrc) : Except WebAppError EventPopupButton :=
  let stringifiedID := config.id.getD ""
  if stringifiedID.length > MAX_ID_LENGTH then
    .error (.popupParamInvalid "button id is too long")
  else
    match config.type with
    | none => .error (.popupParamInvalid "button type is invalid")
    | some t =>
        if t ∈ VALID_BUTTON_TYPES then
          if t ∈ TYPES_WITH_REQUIRED_TEXT then
            let normalizedText := trimJS (config.text.getD "")
            if normalizedText.length = 0 then
              .error (.popupParamInvalid "button text is required")
            else if normalizedText.length > MAX_TEXT_LENGTH then
              .error (.popupParamInvalid "button text is too long")
            else
              .ok { id := stringifiedID, type := t, text := some normalizedText }
          else
            .ok { id := stringifiedID, type := t, text := none }
        else
          .error (.popupParamInvalid "button type is invalid")

/-! ## `Popup` (`src/WebApp/Popup/Popup.ts`) -/

def MAX_TITLE_LENGTH : Nat := 64
def MAX_MESSAGE_LENGTH : Nat := 256
def MIN_BUTTONS : Nat := 1
def MAX_BUTTONS : Nat := 3

/-- `#data.params`: starts as the empty object `{}`; a field is `some` once
the corresponding setter has assigned it (the `params` accessor's
`Object.keys(...).length > 0` test is then "some field is assigned"). -/
structure OpenPopupEventData where
  title : Option String := none
  message : Option String := none
  buttons : Option (List EventPopupButton) := none
deriving Repr, DecidableEq

/-- The private state of a `Popup`; `α` is the type of the stored callback. -/
structure PopupState (α : Type) where
  isOpened : Bool := false
  params : OpenPopupEventData := {}
  callback : Option α := none
deriving Repr, DecidableEq

/-- `createInitialState()`. -/
def createInitialState {α : Type} : PopupState α := {}

/-- The `params` argument of `Popup.open`: `title`/`buttons` optional,
`message` nullable. -/
structure PopupParams where
  title : Option String := none
  message : Option String := none
  buttons : Option (List PopupButtonSrc) := none
deriving Repr, DecidableEq

/-- `Popup.#setTitle`: falsy (absent or empty) title → keep state; title
trimming to empty → keep state; **untrimmed** `title.length > 64` → throw;
otherwise store the trimmed title. -/
def popupSetTitle {α : Type} (title : Option String) (st : PopupState α) :
    Except WebAppError (PopupState α) :=
  match title with
  | none => .ok st
  | some t =>
      if t = "" then .ok st
      else
        let trimmedTitle := trimJS t
        if trimmedTitle.length = 0 then .ok st
        else if t.length > MAX_TITLE_LENGTH then
          .error (.popupParamInvalid "title is too long")
        else .ok { st with params := { st.params with title := some trimmedTitle } }

/-- `Popup.#setMessage`: trim `message ?? ''`; empty → throw; trimmed length
over 256 → throw; otherwise store the trimmed message. -/
def popupSetMessage {α : Type} (message : Option String) (st : PopupState α) :
    Except WebAppError (PopupState α) :=
  let trimmedMessage := trimJS (message.getD "")
  if trimmedMessage = "" then .error (.popupParamInvalid "message is required")
  else if trimmedMessage.length > MAX_MESSAGE_LENGTH then
    .error (.popupParamInvalid "message is too long")
  else .ok { st with params := { st.params with message := some trimmedMessage } }

/-- `buttons.map((button) => new WebAppPopupButton(button).data)`: validate
in order, propagating the first constructor throw. -/
def validateButtons : List PopupButtonSrc → Except WebAppError (List EventPopupButton)
  | [] => .ok []
  | b :: bs =>
      match validateButton b with
      | .error e => .error e
      | .ok eb =>
          match validateButtons bs with
          | .error e => .error e
          | .ok ebs => .ok (eb :: ebs)

/-- `Popup.#setButtons`: absent buttons → synthesize one `close`-type button
whose id is `generateId(5)` (the generated id is threaded in as `genId`);
otherwise check `1 ≤ length ≤ 3` and validate each entry through
`new WebAppPopupButton(button).data`. -/
def popupSetButtons {α : Type} (genId : String) (buttons : Option (List PopupButtonSrc))
    (st : PopupState α) : Except WebAppError (PopupState α) :=
  match buttons with
  | none =>
      match validateButton { id := some genId, type := some "close", text := none } with
      | .ok b => .ok { st with params := { st.params with buttons := some [b] } }
      | .error e => .error e
  | some bs =>
      if bs.length < MIN_BUTTONS then
        .error (.popupParamInvalid "should have at least 1 button")
      else if bs.length > MAX_BUTTONS then
        .error (.popupParamInvalid "should not have more than 3 buttons")
      else
        match validateButtons bs with
        | .ok popupButtons => .ok { st with params := { st.params with buttons := some popupButtons } }
        | .error e => .error e

/-- `Popup.#setCallback`: store the callback only when truthy. -/
def popupSetCallback {α : Type} (callback : Option α) (st : PopupState α) : PopupState α :=
  match callback with
  | none => st
  | some cb => { st with callback := some cb }

/-- `Popup.open`: no-op while opened; otherwise run the setter chain
`#setTitle(title).#setMessage(message).#setButtons(buttons).#setCallback(callback)`
and set `#isOpened = true`. A setter throwing aborts the chain but keeps the
mutations of the setters that already ran (the thrown error is the second
component). -/
def popupOpen {α : Type} (genId : String) (p : PopupParams) (cb : Option α)
    (st : PopupState α) : PopupState α × Option WebAppError :=
  if st.isOpened then (st, none)
  else
    match popupSetTitle p.title st with
    | .error e => (st, some e)
    | .ok st1 =>
        match popupSetMessage p.message st1 with
        | .error e => (st1, some e)
        | .ok st2 =>
            match popupSetButtons genId p.buttons st2 with
            | .error e => (st2, some e)
            | .ok st3 =>
                let st4 := popupSetCallback cb st3
                ({ st4 with isOpened := true }, none)

/-- `Popup.close`: unconditionally reset to the initial state. -/
def popupClose {α : Type} (_ : PopupState α) : PopupState α :=
  createInitialState

/-- The `params` accessor: the stored params object when it has at least one
key, `null` otherwise. -/
def popupParams {α : Type} (st : PopupState α) : Option OpenPopupEventData :=
  let hasData := st.params.title.isSome || st.params.message.isSome || st.params.buttons.isSome
  if hasData then some st.params else none

/-- One application-visible operation on a `Popup`. -/
inductive PopupOp (α : Type) where
  | openOp (genId : String) (p : PopupParams) (cb : Option α)
  | closeOp
deriving Repr

/-- One step of a `Popup.open`/`Popup.close` call sequence; the Boolean
accumulator records whether any `open` so far raised `ParamInvalid`. -/
def popupStep {α : Type} (acc : PopupState α × Bool) (op : PopupOp α) :
    PopupState α × Bool :=
  match op with
  | .openOp g p c =>
      let r := popupOpen g p c acc.1
      (r.1, acc.2 || r.2.isSome)
  | .closeOp => (popupClose acc.1, acc.2)

/-- Run a sequence of `Popup.open`/`Popup.close` calls, recording whether any
`open` raised `ParamInvalid`. -/
def runPopupOps {α : Type} (ops : List (PopupOp α)) (st : PopupState α) :
    PopupState α × Bool :=
  ops.foldl popupStep (st, false)

/-! ## Pending-request registries (`Invoices`, `Clipboard`) -/

/-- Modelled from the spec: the PendingRequestRegistry's `has(id)` (the
`Invoices` and `Clipboard` classes are absent from `src/`; §4.3 gives their
`set`/`has`/`get`/`remove` "standard semantics" of an id-keyed map, modelled
here as an association list with unique keys). -/
def mapHas {β : Type} (m : List (String × β)) (k : String) : Bool :=
  m.any fun e => e.1 == k

/-- Modelled from the spec: the registry's `get(id)`. -/
def mapGet {β : Type} (m : List (String × β)) (k : String) : Option β :=
  (m.find? fun e => e.1 == k).map fun e => e.2

/-- Modelled from the spec: the registry's `remove(id)`. -/
def mapRemove {β : Type} (m : List (String × β)) (k : String) : List (String × β) :=
  m.filter fun e => e.1 != k

/-- Modelled from the spec: the registry's `set(id, value)` (JavaScript `Map`
semantics: replace an existing key, else append). -/
def mapSet {β : Type} (m : List (String × β)) (k : String) (v : β) : List (String × β) :=
  if mapHas m k then m.map (fun e => if e.1 == k then (k, v) else e) else m ++ [(k, v)]

/-- A parsed `new URL(...)` as consumed by `openInvoice` (URL parsing itself
is an external collaborator). -/
structure ParsedURL where
  protocol : String
  hostname : String
  pathname : String
deriving Repr, DecidableEq

/-! ## Inbound handlers (`TelegramWebApp` `#onPopupClosed`,
`#onInvoiceClosed`, `#onClipboardTextReceived`) -/

/-- JavaScript truthiness of the nullable string `button_id ?? null`:
`null` and `""` are falsy. -/
def jsTruthyStr : Option String → Bool
  | none => false
  | some s => s != ""

/-- Outcome of one `#onPopupClosed` dispatch: the popup state afterwards,
the invocation of the stored callback (`some (cb, buttonID)` iff it ran),
and the `popupClosed` application event's `button_id` payload (`none` when
the handler returned early because no popup was open). -/
structure PopupClosedResult (α : Type) where
  popup : PopupState α
  invoked : Option (α × String)
  fired : Option (Option String)
deriving Repr, DecidableEq

/-- `TelegramWebApp.#onPopupClosed`: early return while no popup is open;
otherwise read the callback, `popup.close()`, let
`buttonID = eventData.button_id ?? null`, invoke the callback only when
`buttonID` is truthy, and always fire `popupClosed` with `buttonID`. -/
def onPopupClosed {α : Type} (st : PopupState α) (button_id : Option String) :
    PopupClosedResult α :=
  if st.isOpened = false then ⟨st, none, none⟩
  else
    let callback := st.callback
    let st' := popupClose st
    let buttonID : Option String := button_id
    let invoked :=
      if jsTruthyStr buttonID then
        match callback, buttonID with
        | some cb, some bid => some (cb, bid)
        | _, _ => none
      else none
    ⟨st', invoked, some buttonID⟩

/-- A pending invoice entry (`{ url, callback }`). -/
structure InvoiceEntry (α : Type) where
  url : ParsedURL
  callback : Option α
deriving Repr, DecidableEq

/-- Outcome of one `#onInvoiceClosed` dispatch: the registry afterwards,
the callback invocation (`some (cb, status)` iff it ran), and the
`invoiceClosed` application event's `{url, status}` payload. -/
structure InvoiceClosedResult (α : Type) where
  invoices : List (String × InvoiceEntry α)
  invoked : Option (α × String)
  fired : Option (ParsedURL × String)
deriving Repr, DecidableEq

/-- `TelegramWebApp.#onInvoiceClosed`: ignore a falsy or unknown slug;
otherwise remove the entry, invoke its callback with the status, and fire
`invoiceClosed`. -/
def onInvoiceClosed {α : Type} (invoices : List (String × InvoiceEntry α))
    (slug : Option String) (status : String) : InvoiceClosedResult α :=
  match slug with
  | none => ⟨invoices, none, none⟩
  | some s =>
      if s = "" then ⟨invoices, none, none⟩
      else if mapHas invoices s = false then ⟨invoices, none, none⟩
      else
        match mapGet invoices s with
        | none => ⟨invoices, none, none⟩
        | some entry =>
            ⟨mapRemove invoices s, entry.callback.map fun cb => (cb, status),
              some (entry.url, status)⟩

/-- Outcome of one `#onClipboardTextReceived` dispatch: the request registry
afterwards, the callback invocation (`some (cb, data)` iff it ran), and the
`clipboardTextReceived` application event's `{data}` payload. -/
structure ClipboardReceivedResult (α : Type) where
  requests : List (String × Option α)
  invoked : Option (α × Option String)
  fired : Option (Option String)
deriving Repr, DecidableEq

/-- `TelegramWebApp.#onClipboardTextReceived`: ignore a falsy or unknown
`req_id`; otherwise `getRequest`, `removeRequest` (before the callback
runs), invoke the nullable callback with `data` (default `null`), and fire
`clipboardTextReceived`. -/
def onClipboardTextReceived {α : Type} (requests : List (String × Option α))
    (req_id : Option String) (data : Option String) : ClipboardReceivedResult α :=
  match req_id with
  | none => ⟨requests, none, none⟩
  | some id =>
      if id = "" then ⟨requests, none, none⟩
      else if mapHas requests id = false then ⟨requests, none, none⟩
      else
        let callback : Option α :=
          match mapGet requests id with
          | some cb => cb
          | none => none
        ⟨mapRemove requests id, callback.map fun cb => (cb, data), some data⟩

/-! ## `openInvoice` -/

/-- A character of the slug class `[A-Za-z0-9\-_=]`. -/
def isSlugChar (c : Char) : Bool :=
  ('A' ≤ c && c ≤ 'Z') || ('a' ≤ c && c ≤ 'z') || ('0' ≤ c && c ≤ '9') ||
    c = '-' || c = '_' || c = '='

/-- A non-empty all-slug-character tail (the `([A-Za-z0-9\-_=]+)$` group). -/
def slugTail (rest : List Char) : Option (List Char) :=
  if rest.isEmpty then none
  else if rest.all isSlugChar then some rest else none

/-- The invoice-path regex of `WebApp.ts` `openInvoice`,
`^\/(\$|invoice\/)([A-Za-z0-9\-_=]+)$`, applied to `url.pathname`; yields
the captured slug. -/
def matchInvoicePath (pathname : String) : Option String :=
  match pathname.data with
  | '/' :: '$' :: rest => (slugTail rest).map fun cs => ⟨cs⟩
  | '/' :: 'i' :: 'n' :: 'v' :: 'o' :: 'i' :: 'c' :: 'e' :: '/' :: rest =>
      (slugTail rest).map fun cs => ⟨cs⟩
  | _ => none

/-- `utils`' `isHTTPTypeProtocol` (the inline check of `WebApp.ts`):
`protocol` is `http:` or `https:`. -/
def isHTTPTypeProtocol (protocol : String) : Bool :=
  protocol == "http:" || protocol == "https:"

/-- The url-validation part of `WebApp.ts` `openInvoice`: http(s) protocol,
`t.me` host, and an invoice-shaped pathname with a non-falsy slug. -/
def invoiceSlugOf (url : ParsedURL) : Option String :=
  if isHTTPTypeProtocol url.protocol = false then none
  else if url.hostname != "t.me" then none
  else matchInvoicePath url.pathname

/-- Outcome of an `openInvoice` call: the invoice registry afterwards, the
slug posted via `web_app_open_invoice` (if any), and the thrown error
(if any). -/
structure OpenInvoiceResult (α : Type) where
  invoices : List (String × InvoiceEntry α)
  posted : Option String
  error : Option WebAppError
deriving Repr, DecidableEq

/-- `WebApp.ts` `openInvoice(url, callback)` (the legacy class in `src/`):
invoice-url validation, then the 6.1 version gate, then the duplicate-slug
check; on success save the entry and post `web_app_open_invoice`. -/
def webAppOpenInvoice {α : Type} (version : String)
    (invoices : List (String × InvoiceEntry α)) (url : ParsedURL) (callback : Option α) :
    OpenInvoiceResult α :=
  match invoiceSlugOf url with
  | none => ⟨invoices, none, some .invoiceUrlInvalid⟩
  | some slug =>
      if versionAtLeast version "6.1" = false then
        ⟨invoices, none, some (.methodUnsupported "openInvoice" version)⟩
      else if mapHas invoices slug then ⟨invoices, none, some .invoiceOpened⟩
      else ⟨mapSet invoices slug ⟨url, callback⟩, some slug, none⟩

/-- Modelled from the spec: `Invoices.create(url)` (the `Invoices` class is
absent from `src/`) — the pending-request id is "created by the initiator"
(§4.3) and is the slug of the invoice url, validated per the invoice-url
format of `WebApp.ts`, with an outstanding id rejected (`AlreadyOpen`). -/
def invoicesCreate {α : Type} (invoices : List (String × InvoiceEntry α)) (url : ParsedURL) :
    Except WebAppError String :=
  match invoiceSlugOf url with
  | none => .error .invoiceUrlInvalid
  | some slug =>
      if mapHas invoices slug then .error .invoiceOpened else .ok slug

/-- `TelegramWebApp.openInvoice` (part_000): `#invoices.create(url)`, then
`#invoices.save(slug, {url, callback})`, then post `web_app_open_invoice` —
with **no** version-gate check anywhere (the source carries a
`// TODO: version 6.1+` comment above the method); the `version` argument is
ignored. -/
def telegramOpenInvoice {α : Type} (version : String)
    (invoices : List (String × InvoiceEntry α)) (url : ParsedURL) (callback : Option α) :
    OpenInvoiceResult α :=
  let _ := version
  match invoicesCreate invoices url with
  | .error e => ⟨invoices, none, some e⟩
  | .ok slug => ⟨mapSet invoices slug ⟨url, callback⟩, some slug, none⟩

/-! ## `showPopup`, `showAlert`, `showConfirm` -/

/-- JavaScript values a caller might pass where an object is expected. -/
inductive JSValue where
  | nullValue
  | objectValue (p : PopupParams)
  | undefinedValue
  | stringValue (s : String)
  | numberValue (n : Int)
  | booleanValue (b : Bool)
deriving Repr, DecidableEq

/-- JavaScript `typeof`; in particular `typeof null = "object"`. -/
def jsTypeof : JSValue → String
  | .nullValue => "object"
  | .objectValue _ => "object"
  | .undefinedValue => "undefined"
  | .stringValue _ => "string"
  | .numberValue _ => "number"
  | .booleanValue _ => "boolean"

/-- The params guard of `TelegramWebApp.showPopup`:
`typeof params !== 'object' && params === null`. -/
def showPopupNullGuard (params : JSValue) : Bool :=
  (jsTypeof params != "object") && (params == JSValue.nullValue)

/-- Outcome of a `showPopup`-family call: the popup state afterwards, the
`web_app_open_popup` payload posted (if any), and the thrown error (if
any). -/
structure ShowPopupResult (α : Type) where
  popup : PopupState α
  posted : Option OpenPopupEventData
  error : Option WebAppError
deriving Repr, DecidableEq

/-- `TelegramWebApp.showPopup(params, callback)` for an object `params`
(`genId` threads the `generateId(5)` value `Popup.#setButtons` may use):
6.2 version gate, `AlreadyOpen` check, the null-params guard, `Popup.open`,
then post `web_app_open_popup` with `popup.params ?? {}`. -/
def showPopup {α : Type} (version genId : String) (params : PopupParams) (cb : Option α)
    (popup : PopupState α) : ShowPopupResult α :=
  if isSuitableTo version "6.2" = false then
    ⟨popup, none, some (.methodUnsupported "showPopup" version)⟩
  else if popup.isOpened then ⟨popup, none, some .popupOpened⟩
  else if showPopupNullGuard (.objectValue params) then
    ⟨popup, none, some (.popupParamInvalid "params must be an object")⟩
  else
    match popupOpen genId params cb popup with
    | (st, some e) => ⟨st, none, some e⟩
    | (st, none) => ⟨st, some ((popupParams st).getD {}), none⟩

def OK_BTN_ID : String := "ok"

/-- The boolean `showConfirm`'s `popupCallback` hands to the consumer
callback when invoked with `pressedBtnID`: `pressedBtnID === OK_BTN_ID`. -/
def confirmCallbackArg (pressedBtnID : String) : Bool :=
  pressedBtnID == OK_BTN_ID

/-- `.data` of a constructed `WebAppPopupButton`, as the raw config
`showPopup` hands on to `Popup.#setButtons` (which re-validates it). -/
def buttonToSrc (b : EventPopupButton) : PopupButtonSrc :=
  ⟨some b.id, some b.type, b.text⟩

/-- `TelegramWebApp.showConfirm(message, callback)`: builds an `ok`-type
button with id `"ok"` and a `cancel`-type button with id `""` through
`WebAppPopupButton`, stores `popupCallback` (modelled by the tag `()`, its
behaviour being `confirmCallbackArg`), and delegates to `showPopup`. A
constructor throw would propagate before `showPopup` runs. -/
def showConfirm (version genId message : String) (popup : PopupState Unit) :
    ShowPopupResult Unit :=
  match validateButton ⟨some OK_BTN_ID, some "ok", none⟩,
        validateButton ⟨some "", some "cancel", none⟩ with
  | .ok okBtn, .ok cancelBtn =>
      showPopup version genId
        { message := some message, buttons := some [buttonToSrc okBtn, buttonToSrc cancelBtn] }
        (some ()) popup
  | .error e, _ => ⟨popup, none, some e⟩
  | _, .error e => ⟨popup, none, some e⟩

/-! ## `switchInlineQuery` -/

def MAX_INLINE_QUERY_LENGTH : Nat := 256

/-- `VALID_CHAT_TYPES = Object.values(CHAT_TYPES)`. -/
def VALID_CHAT_TYPES : List String := ["users", "bots", "groups", "channels"]

/-- `[...new Set(l)]`: deduplicate keeping first occurrences, in order. -/
def dedupFirst (l : List String) : List String :=
  l.foldl (fun acc x => if x ∈ acc then acc else acc ++ [x]) []

/-- Outcome of a `switchInlineQuery` call: the
`web_app_switch_inline_query` payload `(query, chat_types)` posted (if
any) and the thrown error (if any). -/
structure SwitchInlineQueryResult where
  posted : Option (String × List String)
  error : Option WebAppError
deriving Repr, DecidableEq

/-- `TelegramWebApp.switchInlineQuery(query, chatTypesToChoose)`: 6.7 version
gate, `tgWebAppBotInline` flag, trimmed-query length bound, the
`Array.isArray` check on the **original** argument (`none` models
`undefined`/`null`, which fail it even though `chatTypes` was already
defaulted to `[]`), per-entry validity of the deduplicated chat types, then
post `web_app_switch_inline_query`. -/
def switchInlineQuery (version : String) (botInline : Bool) (query : String)
    (chatTypesToChoose : Option (List String)) : SwitchInlineQueryResult :=
  if isSuitableTo version "6.7" = false then
    ⟨none, some (.methodUnsupported "switchInlineQuery" version)⟩
  else if botInline = false then ⟨none, some .inlineModeDisabled⟩
  else
    let queryToSend := trimJS query
    if queryToSend.length > MAX_INLINE_QUERY_LENGTH then ⟨none, some .inlineQueryInvalid⟩
    else
      let chatTypes := chatTypesToChoose.getD []
      if chatTypesToChoose.isSome = false then ⟨none, some .chooseChatTypesInvalid⟩
      else
        let chats := dedupFirst chatTypes
        if (chats.all fun chat => VALID_CHAT_TYPES.contains chat) = false then
          ⟨none, some .chooseChatTypeInvalid⟩
        else ⟨some (queryToSend, chats), none⟩

/-! ## Claim-side characterizations -/

/-- The claimed rejection condition for a popup-button spec: the stringified
id longer than 64, or a type outside the 5 enumerated kinds, or a
text-requiring type (`default`/`destructive`) whose trimmed text is empty or
longer than 64. -/
def buttonSpecRejects (config : PopupButtonSrc) : Bool :=
  decide ((config.id.getD "").length > 64) ||
  (match config.type with
   | none => true
   | some t => !(decide (t ∈ (["default", "ok", "close", "cancel", "destructive"] : List String)))) ||
  (match config.type with
   | none => false
   | some t =>
       decide (t ∈ (["default", "destructive"] : List String)) &&
         (decide ((trimJS (config.text.getD "")).length = 0) ||
          decide ((trimJS (config.text.getD "")).length > 64)))

end TelegramWebApp

/-! ## Helper lemmas -/

namespace TelegramWebApp

lemma padZeros_nil (n : Nat) : padZeros [] n = List.replicate n 0 := by
  simp [padZeros]

lemma padZeros_cons (x : Int) (xs : List Int) (n : Nat) :
    padZeros (x :: xs) (n + 1) = x :: padZeros xs n := by
  simp [padZeros, List.cons_append, Nat.succ_sub_succ]

lemma padZeros_self (xs : List Int) : padZeros xs xs.length = xs := by
  simp [padZeros]

lemma padZeros_eq_self {l : List Int} {n : Nat} (h : l.length = n) : padZeros l n = l := by
  simp [padZeros, h]

lemma step_iff (p q c : Int) (b : Bool) (hcb : (0 ≤ c) ↔ b = true) :
    (0 ≤ if p = q then c else if p > q then (1 : Int) else -1) ↔
      ((if p = q then b else decide (p > q)) = true) := by
  by_cases h : p = q
  · simpa [h] using hcb
  · by_cases h2 : p > q
    · simp [h, h2]
    · simp [h, h2]

lemma compareUnits_nil_right_eq (us1 : List String) :
    compareUnits us1 [] = compareUnitsRight us1 := by
  cases us1 <;> rfl

lemma compareUnits_nil_left_eq (us2 : List String) :
    compareUnits [] us2 = compareUnitsLeft us2 := by
  cases us2 <;> rfl

lemma compareUnitsRight_lexGE (us : List String) :
    (0 ≤ compareUnitsRight us) ↔
      lexGE (us.map parseIntOr0) (List.replicate us.length 0) = true := by
  induction us with
  | nil => simp [compareUnitsRight, lexGE]
  | cons u us ih =>
      simp only [compareUnitsRight, List.map_cons, List.length_cons, List.replicate_succ, lexGE]
      exact step_iff _ _ _ _ ih

lemma compareUnitsLeft_lexGE (us : List String) :
    (0 ≤ compareUnitsLeft us) ↔
      lexGE (List.replicate us.length 0) (us.map parseIntOr0) = true := by
  induction us with
  | nil => simp [compareUnitsLeft, lexGE]
  | cons u us ih =>
      simp only [compareUnitsLeft, List.map_cons, List.length_cons, List.replicate_succ, lexGE]
      exact step_iff _ _ _ _ ih

lemma lexGE_cons (x y : Int) (xs ys : List Int) :
    lexGE (x :: xs) (y :: ys) = if x = y then lexGE xs ys else decide (x > y) := rfl

lemma compareUnits_cons (u1 u2 : String) (us1 us2 : List String) :
    compareUnits (u1 :: us1) (u2 :: us2) =
      if parseIntOr0 u1 = parseIntOr0 u2 then compareUnits us1 us2
      else if parseIntOr0 u1 > parseIntOr0 u2 then 1 else -1 := rfl

lemma compareUnits_lexGE (us1 us2 : List String) :
    (0 ≤ compareUnits us1 us2) ↔
      lexGE (padZeros (us1.map parseIntOr0) (max us1.length us2.length))
            (padZeros (us2.map parseIntOr0) (max us1.length us2.length)) = true := by
  induction us1 generalizing us2 with
  | nil =>
      cases us2 with
      | nil =>
          rw [compareUnits_nil_right_eq]
          simp [compareUnitsRight, padZeros, lexGE]
      | cons u us =>
          rw [compareUnits_nil_left_eq]
          rw [show (([] : List String).map parseIntOr0) = ([] : List Int) from rfl]
          rw [show max ([] : List String).length (u :: us).length = (u :: us).length by simp]
          rw [padZeros_eq_self (List.length_map (u :: us) parseIntOr0), padZeros_nil]
          exact compareUnitsLeft_lexGE (u :: us)
  | cons u1 us1 ih =>
      cases us2 with
      | nil =>
          rw [compareUnits_nil_right_eq]
          rw [show (([] : List String).map parseIntOr0) = ([] : List Int) from rfl]
          rw [show max (u1 :: us1).length ([] : List String).length = (u1 :: us1).length by simp]
          rw [padZeros_eq_self (List.length_map (u1 :: us1) parseIntOr0), padZeros_nil]
          exact compareUnitsRight_lexGE (u1 :: us1)
      | cons u2 us2 =>
          have hmax : max (u1 :: us1).length (u2 :: us2).length
              = max us1.length us2.length + 1 := by
            simp [List.length_cons, Nat.succ_max_succ]
          rw [hmax, compareUnits_cons,
            show ((u1 :: us1).map parseIntOr0) = parseIntOr0 u1 :: us1.map parseIntOr0 from rfl,
            show ((u2 :: us2).map parseIntOr0) = parseIntOr0 u2 :: us2.map parseIntOr0 from rfl,
            padZeros_cons, padZeros_cons, lexGE_cons]
          exact step_iff _ _ _ _ (ih us2)

lemma popupParams_initial {α : Type} : popupParams (createInitialState (α := α)) = none := rfl

lemma popupOpen_ok_cases {α : Type} (genId : String) (p : PopupParams) (cb : Option α)
    (st st' : PopupState α) (h : popupOpen genId p cb st = (st', none)) :
    st' = st ∨ st'.isOpened = true := by
  unfold popupOpen at h
  by_cases ho : st.isOpened
  · left
    simp [ho] at h
    exact h.symm
  · simp only [ho, Bool.false_eq_true, if_false] at h
    split at h
    · simp at h
    · split at h
      · simp at h
      · split at h
        · simp at h
        · injection h with h4 h5
          right
          rw [← h4]

lemma popupStep_flag_true {α : Type} (op : PopupOp α) (st : PopupState α) :
    popupStep (st, true) op = ((popupStep (st, true) op).1, true) := by
  cases op <;> simp [popupStep]

lemma foldl_flag_true {α : Type} (ops : List (PopupOp α)) (st : PopupState α) :
    (ops.foldl popupStep (st, true)).2 = true := by
  induction ops generalizing st with
  | nil => rfl
  | cons op ops ih =>
      rw [List.foldl_cons, popupStep_flag_true]
      exact ih _

lemma foldl_popup_inv {α : Type} (ops : List (PopupOp α)) :
    ∀ (st : PopupState α) (b : Bool),
      (st.isOpened = false → popupParams st = none) →
      (ops.foldl popupStep (st, b)).2 = false →
      (ops.foldl popupStep (st, b)).1.isOpened = false →
      popupParams (ops.foldl popupStep (st, b)).1 = none := by
  induction ops with
  | nil =>
      intro st b hinv _ hop
      exact hinv hop
  | cons op ops ih =>
      intro st b hinv hflag hop
      rw [List.foldl_cons] at hflag hop ⊢
      cases op with
      | closeOp =>
          simp only [popupStep] at hflag hop ⊢
          refine ih _ _ ?_ hflag hop
          intro _
          exact popupParams_initial
      | openOp g p c =>
          simp only [popupStep] at hflag hop ⊢
          by_cases herr : (popupOpen g p c st).2.isSome
          · exfalso
            have hb : (b || (popupOpen g p c st).2.isSome) = true := by simp [herr]
            rw [hb, foldl_flag_true] at hflag
            exact absurd hflag (by simp)
          · refine ih _ _ ?_ hflag hop
            intro hop'
            have hok : (popupOpen g p c st).2 = none := Option.not_isSome_iff_eq_none.mp herr
            have heq : popupOpen g p c st = ((popupOpen g p c st).1, none) := by
              rw [← hok]
            rcases popupOpen_ok_cases g p c st (popupOpen g p c st).1 heq with hsame | hopen
            · rw [hsame] at hop' ⊢
              exact hinv hop'
            · rw [hopen] at hop'
              exact absurd hop' (by simp)

lemma popupSetTitle_error {α : Type} (title : Option String) (st : PopupState α)
    (e : WebAppError) (h : popupSetTitle title st = .error e) :
    e = .popupParamInvalid "title is too long" := by
  unfold popupSetTitle at h
  cases title with
  | none => simp at h
  | some t =>
      by_cases h1 : t = ""
      · simp [h1] at h
      · by_cases h2 : (trimJS t).length = 0
        · simp [h1, h2] at h
        · by_cases h3 : t.length > MAX_TITLE_LENGTH
          · simp [h1, h2, h3] at h
            exact h.symm
          · simp [h1, h2, h3] at h

lemma popupSetMessage_error {α : Type} (message : Option String) (st : PopupState α)
    (e : WebAppError) (h : popupSetMessage message st = .error e) :
    e = .popupParamInvalid "message is required" ∨
      e = .popupParamInvalid "message is too long" := by
  unfold popupSetMessage at h
  by_cases h1 : trimJS (message.getD "") = ""
  · simp [h1] at h
    exact Or.inl h.symm
  · by_cases h2 : (trimJS (message.getD "")).length > MAX_MESSAGE_LENGTH
    · simp [h1, h2] at h
      exact Or.inr h.symm
    · simp [h1, h2] at h

lemma validateButton_error_ne_title (config : PopupButtonSrc) (e : WebAppError)
    (h : validateButton config = .error e) :
    e ≠ WebAppError.popupParamInvalid "title is too long" := by
  unfold validateButton at h
  by_cases h1 : (config.id.getD "").length > MAX_ID_LENGTH
  · simp [h1] at h
    rw [← h]
    decide
  · cases h2 : config.type with
    | none =>
        simp [h1, h2] at h
        rw [← h]
        decide
    | some t =>
        by_cases h3 : t ∈ VALID_BUTTON_TYPES
        · by_cases h4 : t ∈ TYPES_WITH_REQUIRED_TEXT
          · by_cases h5 : (trimJS (config.text.getD "")).length = 0
            · simp [h1, h2, h3, h4, h5] at h
              rw [← h]
              decide
            · by_cases h6 : (trimJS (config.text.getD "")).length > MAX_TEXT_LENGTH
              · simp [h1, h2, h3, h4, h5, h6] at h
                rw [← h]
                decide
              · simp [h1, h2, h3, h4, h5, h6] at h
          · simp [h1, h2, h3, h4] at h
        · simp [h1, h2, h3] at h
          rw [← h]
          decide

lemma validateButtons_error_ne_title (bs : List PopupButtonSrc) (e : WebAppError)
    (h : validateButtons bs = .error e) :
    e ≠ WebAppError.popupParamInvalid "title is too long" := by
  induction bs with
  | nil => simp [validateButtons] at h
  | cons b bs ih =>
      unfold validateButtons at h
      cases hb : validateButton b with
      | error e2 =>
          rw [hb] at h
          simp at h
          exact h ▸ validateButton_error_ne_title b e2 hb
      | ok eb =>
          rw [hb] at h
          cases hbs : validateButtons bs with
          | error e2 =>
              rw [hbs] at h
              simp at h
              subst h
              exact ih hbs
          | ok ebs =>
              rw [hbs] at h
              simp at h

lemma popupSetButtons_error_ne_title {α : Type} (genId : String)
    (buttons : Option (List PopupButtonSrc)) (st : PopupState α) (e : WebAppError)
    (h : popupSetButtons genId buttons st = .error e) :
    e ≠ WebAppError.popupParamInvalid "title is too long" := by
  unfold popupSetButtons at h
  cases buttons with
  | none =>
      cases hv : validateButton { id := some genId, type := some "close", text := none } with
      | error e2 =>
          rw [hv] at h
          simp at h
          exact h ▸ validateButton_error_ne_title _ e2 hv
      | ok b =>
          rw [hv] at h
          simp at h
  | some bs =>
      by_cases h1 : bs.length < MIN_BUTTONS
      · simp [h1] at h
        rw [← h]
        decide
      · by_cases h2 : bs.length > MAX_BUTTONS
        · simp [h1, h2] at h
          rw [← h]
          decide
        · simp only [h1, h2, if_false] at h
          cases hbs : validateButtons bs with
          | error e2 =>
              rw [hbs] at h
              simp at h
              exact h ▸ validateButtons_error_ne_title bs e2 hbs
          | ok ebs =>
              rw [hbs] at h
              simp at h

lemma popupOpen_not_opened {α : Type} (genId : String) (p : PopupParams) (cb : Option α)
    (st : PopupState α) (h : st.isOpened = false) :
    popupOpen genId p cb st =
      match popupSetTitle p.title st with
      | .error e => (st, some e)
      | .ok st1 =>
          match popupSetMessage p.message st1 with
          | .error e => (st1, some e)
          | .ok st2 =>
              match popupSetButtons genId p.buttons st2 with
              | .error e => (st2, some e)
              | .ok st3 => ({ popupSetCallback cb st3 with isOpened := true }, none) := by
  unfold popupOpen
  rw [if_neg (by simp [h])]

lemma popupSetTitle_err_pos {α : Type} (t : String) (st : PopupState α) (h1 : ¬ t = "")
    (h2 : ¬ (trimJS t).length = 0) (h3 : t.length > MAX_TITLE_LENGTH) :
    popupSetTitle (some t) st = .error (.popupParamInvalid "title is too long") := by
  simp [popupSetTitle, h1, h2, h3]

lemma popupSetTitle_error_exists {α : Type} (title : Option String) (st : PopupState α)
    (e : WebAppError) (h : popupSetTitle title st = .error e) :
    ∃ t, title = some t ∧ t ≠ "" ∧ (trimJS t).length ≠ 0 ∧ t.length > MAX_TITLE_LENGTH := by
  unfold popupSetTitle at h
  cases title with
  | none => simp at h
  | some t =>
      by_cases h1 : t = ""
      · simp [h1] at h
      · by_cases h2 : (trimJS t).length = 0
        · simp [h1, h2] at h
        · by_cases h3 : t.length > MAX_TITLE_LENGTH
          · exact ⟨t, rfl, h1, h2, h3⟩
          · simp [h1, h2, h3] at h

lemma popupOpen_error_decomp {α : Type} (genId : String) (p : PopupParams) (cb : Option α)
    (st : PopupState α) (e : WebAppError) (hopn : st.isOpened = false)
    (h : (popupOpen genId p cb st).2 = some e) :
    popupSetTitle p.title st = .error e ∨
    (∃ st1, popupSetTitle p.title st = .ok st1 ∧ popupSetMessage p.message st1 = .error e) ∨
    (∃ st1 st2, popupSetTitle p.title st = .ok st1 ∧ popupSetMessage p.message st1 = .ok st2 ∧
        popupSetButtons genId p.buttons st2 = .error e) := by
  rw [popupOpen_not_opened genId p cb st hopn] at h
  split at h
  · rename_i e1 heq
    simp at h
    subst h
    exact Or.inl heq
  · rename_i st1 heq1
    split at h
    · rename_i e2 heq2
      simp at h
      subst h
      exact Or.inr (Or.inl ⟨st1, heq1, heq2⟩)
    · rename_i st2 heq2
      split at h
      · rename_i e3 heq3
        simp at h
        subst h
        exact Or.inr (Or.inr ⟨st1, st2, heq1, heq2, heq3⟩)
      · simp at h

lemma popupOpen_ok_opened {α : Type} (genId : String) (p : PopupParams) (cb : α)
    (st st' : PopupState α) (hopn : st.isOpened = false)
    (h : popupOpen genId p (some cb) st = (st', none)) :
    st'.isOpened = true ∧ st'.callback = some cb := by
  rw [popupOpen_not_opened genId p (some cb) st hopn] at h
  split at h
  · simp at h
  · split at h
    · simp at h
    · split at h
      · simp at h
      · injection h with h4 h5
        refine ⟨?_, ?_⟩
        · rw [← h4]
        · rw [← h4]
          rfl

lemma mapHas_remove {β : Type} (m : List (String × β)) (k : String) :
    mapHas (mapRemove m k) k = false := by
  induction m with
  | nil => rfl
  | cons e m ih =>
      unfold mapHas mapRemove at ih ⊢
      by_cases h : (e.1 == k) = true
      · simp [List.filter_cons, bne, h, ih]
      · simp only [Bool.not_eq_true] at h
        simp [List.filter_cons, bne, h, ih]

lemma onInvoiceClosed_some {α : Type} (invoices : List (String × InvoiceEntry α))
    (s status : String) :
    onInvoiceClosed invoices (some s) status =
      if s = "" then ⟨invoices, none, none⟩
      else if mapHas invoices s = false then ⟨invoices, none, none⟩
      else
        match mapGet invoices s with
        | none => ⟨invoices, none, none⟩
        | some entry =>
            ⟨mapRemove invoices s, entry.callback.map fun cb => (cb, status),
              some (entry.url, status)⟩ := rfl

lemma onClipboardTextReceived_some {α : Type} (requests : List (String × Option α))
    (id : String) (data : Option String) :
    onClipboardTextReceived requests (some id) data =
      if id = "" then ⟨requests, none, none⟩
      else if mapHas requests id = false then ⟨requests, none, none⟩
      else
        let callback : Option α :=
          match mapGet requests id with
          | some cb => cb
          | none => none
        ⟨mapRemove requests id, callback.map fun cb => (cb, data), some data⟩ := rfl

lemma mapHas_of_mapGet {β : Type} {m : List (String × β)} {k : String} {v : β}
    (h : mapGet m k = some v) : mapHas m k = true := by
  unfold mapGet at h
  unfold mapHas
  cases hf : m.find? (fun e => e.1 == k) with
  | none => rw [hf] at h; simp at h
  | some e =>
      have hp := List.find?_some hf
      have hmem := List.mem_of_find?_eq_some hf
      exact List.any_eq_true.mpr ⟨e, hmem, hp⟩

end TelegramWebApp


namespace Claims

open TelegramWebApp

/-- C1. `isVersionAtLeast`/`isSuitableTo(target)` returns true iff the
current version is ≥ `target` under lexicographic comparison of the
dot-separated component sequences zero-padded to a common length (missing
trailing components and non-numeric components parse as 0); for current
version "6.4": `isSuitableTo "6.1"` is true, `isSuitableTo "6.4"` is true,
`isSuitableTo "6.5"` is false, and "6" compares equal to "6.0.0". The
embedding of the comparison is a pure function. -/
theorem version_gate_comparison :
    (∀ cur target : String,
        isVersionAtLeast cur target = true ↔ specVersionGE cur target = true) ∧
    (∀ cur target : String, isSuitableTo cur target = isVersionAtLeast cur target) ∧
    isSuitableTo "6.4" "6.1" = true ∧
    isSuitableTo "6.4" "6.4" = true ∧
    isSuitableTo "6.4" "6.5" = false ∧
    versionCompare "6" "6.0.0" = 0 := by
  refine ⟨?_, fun _ _ => rfl, by decide, by decide, by decide, by decide⟩
  intro cur target
  have h := compareUnits_lexGE (versionUnits cur) (versionUnits target)
  simp only [isVersionAtLeast, versionAtLeast, versionCompare, specVersionGE,
    versionComponents, List.length_map, decide_eq_true_eq, ge_iff_le]
  exact h

/-- C3 counterexample: `open({title:"t", message:""})` raises `ParamInvalid`
after `#setTitle` has already stored the trimmed title, so afterwards
`isOpened` is false yet the `params` accessor does not return null —
refuting the claimed invariant over sequences that include a failing
`open`. -/
theorem popup_state_invariant_counterexample :
    (runPopupOps [PopupOp.openOp "v" ⟨some "t", some "", none⟩ none]
        (createInitialState (α := Unit))).1.isOpened = false ∧
    popupParams (runPopupOps [PopupOp.openOp "v" ⟨some "t", some "", none⟩ none]
        (createInitialState (α := Unit))).1 ≠ none ∧
    (runPopupOps [PopupOp.openOp "v" ⟨some "t", some "", none⟩ none]
        (createInitialState (α := Unit))).2 = true := by decide

/-- C3 (amended): after every sequence of `Popup.open` and `Popup.close`
calls **in which no open raises `ParamInvalid`**, whenever `isOpened` is
false the `params` accessor returns null; and `close()` unconditionally
resets all fields to the initial state and is idempotent. (The unrestricted
claim fails: an `open` that raises after storing some fields leaves
`isOpened = false` with non-null `params`, see the counterexample.) -/
theorem popup_state_invariant :
    (∀ (α : Type) (ops : List (PopupOp α)),
        (runPopupOps ops createInitialState).2 = false →
        (runPopupOps ops createInitialState).1.isOpened = false →
        popupParams (runPopupOps ops createInitialState).1 = none) ∧
    (∀ (α : Type) (st : PopupState α), popupClose st = createInitialState) ∧
    (∀ (α : Type) (st : PopupState α), popupClose (popupClose st) = popupClose st) := by
  refine ⟨?_, fun α st => rfl, fun α st => rfl⟩
  intro α ops hflag hop
  exact foldl_popup_inv ops createInitialState false (fun _ => popupParams_initial) hflag hop

/-- Witness for `popup_state_invariant`: a successful open followed by a
close leaves a closed popup whose `params` accessor returns null. -/
theorem popup_state_invariant_witness :
    popupParams (runPopupOps
        [PopupOp.openOp "v" ⟨none, some "hi", none⟩ none, PopupOp.closeOp]
        (createInitialState (α := Unit))).1 = none :=
  popup_state_invariant.1 Unit
    [PopupOp.openOp "v" ⟨none, some "hi", none⟩ none, PopupOp.closeOp]
    (by decide) (by decide)

/-- C4 counterexample: a title of 64 spaces followed by `"a"` trims to `"a"`
(non-empty, length ≤ 64), yet `open` raises `ParamInvalid` for the title,
because `#setTitle` bounds the **untrimmed** `title.length`. -/
theorem popup_title_validation_counterexample :
    trimJS ⟨List.replicate 64 ' ' ++ ['a']⟩ = "a" ∧
    (trimJS ⟨List.replicate 64 ' ' ++ ['a']⟩).length ≤ 64 ∧
    (popupOpen "v" ⟨some ⟨List.replicate 64 ' ' ++ ['a']⟩, some "hi", none⟩ none
        (createInitialState (α := Unit))).2
      = some (.popupParamInvalid "title is too long") := by decide

/-- C4 (amended): `open` raises `ParamInvalid` for the title iff the title is
present, non-empty, trims to non-empty, and its **untrimmed** length exceeds
64 characters (not its trimmed length, as claimed); an accepted non-empty
title is stored trimmed, and a title that trims to empty is omitted without
error. -/
theorem popup_title_validation :
    (∀ (α : Type) (genId : String) (p : PopupParams) (cb : Option α) (st : PopupState α),
        st.isOpened = false →
        ((popupOpen genId p cb st).2 = some (.popupParamInvalid "title is too long") ↔
          ∃ t, p.title = some t ∧ t ≠ "" ∧ (trimJS t).length ≠ 0 ∧ t.length > 64)) ∧
    (∀ (α : Type) (t : String) (st : PopupState α),
        t ≠ "" → (trimJS t).length ≠ 0 → t.length ≤ 64 →
        popupSetTitle (some t) st =
          .ok { st with params := { st.params with title := some (trimJS t) } }) ∧
    (∀ (α : Type) (t : String) (st : PopupState α), (trimJS t).length = 0 →
        popupSetTitle (some t) st = .ok st) ∧
    (∀ (α : Type) (st : PopupState α), popupSetTitle none st = .ok st) := by
  refine ⟨?_, ?_, ?_, fun α st => rfl⟩
  · intro α genId p cb st hopn
    constructor
    · intro herr
      rcases popupOpen_error_decomp genId p cb st _ hopn herr with h | ⟨st1, _, h⟩ | ⟨st1, st2, _, _, h⟩
      · have := popupSetTitle_error_exists p.title st _ h
        simpa [MAX_TITLE_LENGTH] using this
      · rcases popupSetMessage_error p.message st1 _ h with hc | hc <;> simp at hc
      · exact absurd rfl (popupSetButtons_error_ne_title genId p.buttons st2 _ h)
    · rintro ⟨t, hp, h1, h2, h3⟩
      rw [popupOpen_not_opened genId p cb st hopn, hp,
        popupSetTitle_err_pos t st h1 h2 (by simpa [MAX_TITLE_LENGTH] using h3)]
  · intro α t st h1 h2 h3
    have h4 : ¬ t.length > MAX_TITLE_LENGTH := by simp only [MAX_TITLE_LENGTH]; omega
    simp [popupSetTitle, h1, h2, h4]
  · intro α t st h2
    by_cases h1 : t = ""
    · simp [popupSetTitle, h1]
    · simp [popupSetTitle, h1, h2]

/-- Witness for `popup_title_validation`: the valid title `" a "` is stored
as its trimmed form `"a"`, and a fresh open with an over-long untrimmed
title raises exactly the title error. -/
theorem popup_title_validation_witness :
    popupSetTitle (some " a ") (createInitialState (α := Unit)) =
      .ok { createInitialState with
              params := { (createInitialState (α := Unit)).params with title := some "a" } } ∧
    (popupOpen "v" ⟨some ⟨List.replicate 64 ' ' ++ ['a']⟩, some "hi", none⟩ none
        (createInitialState (α := Unit))).2
      = some (.popupParamInvalid "title is too long") := by
  constructor
  · have h := popup_title_validation.2.1 Unit " a " createInitialState
      (by decide) (by decide) (by decide)
    simpa [show trimJS " a " = "a" from by decide] using h
  · exact (popup_title_validation.1 Unit "v" ⟨some ⟨List.replicate 64 ' ' ++ ['a']⟩, some "hi", none⟩
      none createInitialState (by decide)).mpr
      ⟨⟨List.replicate 64 ' ' ++ ['a']⟩, rfl, by decide, by decide, by decide⟩

/-- C5. `Popup.open` postconditions: `open({message:"hi"})` with buttons
omitted succeeds and yields exactly one synthesized `close`-type button
carrying the freshly generated id; a message whose trimmed form is empty or
longer than 256 characters makes `open` raise `ParamInvalid`; opening while
already `Open` is a complete no-op; a supplied buttons array with 0 or more
than 3 entries makes `open` raise `ParamInvalid`. -/
theorem popup_open_postconditions :
    (∀ genId : String, genId.length ≤ 64 →
        (popupOpen genId ⟨none, some "hi", none⟩ none (createInitialState (α := Unit))).2 = none ∧
        (popupOpen genId ⟨none, some "hi", none⟩ none
            (createInitialState (α := Unit))).1.params.buttons
          = some [⟨genId, "close", none⟩]) ∧
    (∀ (α : Type) (genId : String) (p : PopupParams) (cb : Option α) (st : PopupState α),
        st.isOpened = false →
        (trimJS (p.message.getD "") = "" ∨ (trimJS (p.message.getD "")).length > 256) →
        (popupOpen genId p cb st).2.isSome = true) ∧
    (∀ (α : Type) (genId : String) (p : PopupParams) (cb : Option α) (st : PopupState α),
        st.isOpened = true → popupOpen genId p cb st = (st, none)) ∧
    (∀ (α : Type) (genId : String) (p : PopupParams) (cb : Option α) (st : PopupState α)
        (bs : List PopupButtonSrc),
        st.isOpened = false → p.buttons = some bs → (bs.length = 0 ∨ bs.length > 3) →
        (popupOpen genId p cb st).2.isSome = true) := by
  refine ⟨?_, ?_, ?_, ?_⟩
  · intro genId hg
    have hval : validateButton ⟨some genId, some "close", none⟩ = .ok ⟨genId, "close", none⟩ := by
      unfold validateButton
      rw [if_neg (by simp only [Option.getD_some, MAX_ID_LENGTH]; omega)]
      simp [VALID_BUTTON_TYPES, TYPES_WITH_REQUIRED_TEXT]
    have hbtns : popupSetButtons genId none
        (⟨false, ⟨none, some "hi", none⟩, none⟩ : PopupState Unit)
        = .ok ⟨false, ⟨none, some "hi", some [⟨genId, "close", none⟩]⟩, none⟩ := by
      unfold popupSetButtons
      rw [hval]
    have hrun : popupOpen genId ⟨none, some "hi", none⟩ none (createInitialState (α := Unit))
        = (⟨true, ⟨none, some "hi", some [⟨genId, "close", none⟩]⟩, none⟩, none) := by
      rw [popupOpen_not_opened genId ⟨none, some "hi", none⟩ none createInitialState rfl]
      simp only [show (⟨none, some "hi", none⟩ : PopupParams).title = none from rfl,
        show (⟨none, some "hi", none⟩ : PopupParams).message = some "hi" from rfl,
        show (⟨none, some "hi", none⟩ : PopupParams).buttons = none from rfl,
        show popupSetTitle none (createInitialState (α := Unit)) = .ok createInitialState
          from rfl,
        show popupSetMessage (some "hi") (createInitialState (α := Unit))
            = .ok ⟨false, ⟨none, some "hi", none⟩, none⟩ from rfl,
        hbtns, popupSetCallback]
    rw [hrun]
    exact ⟨rfl, rfl⟩
  · intro α genId p cb st hopn hmsg
    rw [popupOpen_not_opened genId p cb st hopn]
    split
    · simp
    · rename_i st1 heq1
      split
      · simp
      · rename_i st2 heq2
        exfalso
        unfold popupSetMessage at heq2
        rcases hmsg with he | hl
        · simp [he] at heq2
        · by_cases he : trimJS (p.message.getD "") = ""
          · simp [he] at heq2
          · simp [he, MAX_MESSAGE_LENGTH, hl] at heq2
  · intro α genId p cb st h
    simp [popupOpen, h]
  · intro α genId p cb st bs hopn hb hlen
    rw [popupOpen_not_opened genId p cb st hopn]
    split
    · simp
    · rename_i st1 heq1
      split
      · simp
      · rename_i st2 heq2
        split
        · simp
        · rename_i st3 heq3
          exfalso
          rw [hb] at heq3
          unfold popupSetButtons at heq3
          rcases hlen with h0 | h4
          · simp [h0, MIN_BUTTONS] at heq3
          · have h5 : ¬ bs.length < MIN_BUTTONS := by
              simp only [MIN_BUTTONS]; omega
            have h6 : bs.length > MAX_BUTTONS := by
              simp only [MAX_BUTTONS]; omega
            simp [h5, h6] at heq3

/-- Witness for `popup_open_postconditions` at concrete inputs: the
synthesized close button for `genId = "abcde"`, a failing empty message, a
no-op re-open, and a failing empty buttons array. -/
theorem popup_open_postconditions_witness :
    (popupOpen "abcde" ⟨none, some "hi", none⟩ none
        (createInitialState (α := Unit))).1.params.buttons
      = some [⟨"abcde", "close", none⟩] ∧
    (popupOpen "v" ⟨none, some "  ", none⟩ none (createInitialState (α := Unit))).2.isSome
      = true ∧
    popupOpen "v" ⟨none, some "hi", none⟩ none
        (⟨true, ⟨none, some "yo", none⟩, none⟩ : PopupState Unit)
      = (⟨true, ⟨none, some "yo", none⟩, none⟩, none) ∧
    (popupOpen "v" ⟨none, some "hi", some []⟩ none (createInitialState (α := Unit))).2.isSome
      = true := by
  refine ⟨(popup_open_postconditions.1 "abcde" (by decide)).2, ?_, ?_, ?_⟩
  · exact popup_open_postconditions.2.1 Unit "v" ⟨none, some "  ", none⟩ none
      createInitialState (by decide) (Or.inl (by decide))
  · exact popup_open_postconditions.2.2.1 Unit "v" ⟨none, some "hi", none⟩ none
      ⟨true, ⟨none, some "yo", none⟩, none⟩ rfl
  · exact popup_open_postconditions.2.2.2 Unit "v" ⟨none, some "hi", some []⟩ none
      createInitialState [] (by decide) rfl (Or.inl rfl)

/-- C6. `WebAppPopupButton` validation fails with `ParamInvalid` exactly when
the stringified id exceeds 64 characters, or the type is not one of the 5
enumerated kinds, or the type requires text (`default`/`destructive`) and
the trimmed text is empty or exceeds 64 characters; for the other types any
supplied text is dropped from the result; the checks run in the fixed order
id → type → text; and the four concrete examples behave as claimed. -/
theorem popup_button_validator :
    (∀ config : PopupButtonSrc,
        (validateButton config).isOk = false ↔ buttonSpecRejects config = true) ∧
    (∀ (config : PopupButtonSrc) (b : EventPopupButton),
        validateButton config = .ok b →
        b.type ∉ TYPES_WITH_REQUIRED_TEXT → b.text = none) ∧
    (∀ config : PopupButtonSrc,
        (config.id.getD "").length > MAX_ID_LENGTH →
        validateButton config = .error (.popupParamInvalid "button id is too long")) ∧
    (∀ (config : PopupButtonSrc) (t : String),
        config.type = some t → t ∉ VALID_BUTTON_TYPES →
        ¬ (config.id.getD "").length > MAX_ID_LENGTH →
        validateButton config = .error (.popupParamInvalid "button type is invalid")) ∧
    (validateButton ⟨some ⟨List.replicate 65 'a'⟩, some "default", some "x"⟩).isOk = false ∧
    (validateButton ⟨some "b", some "bogus", some "x"⟩).isOk = false ∧
    validateButton ⟨some "b", some "ok", none⟩ = .ok ⟨"b", "ok", none⟩ ∧
    (validateButton ⟨some "b", some "default", some ""⟩).isOk = false := by
  refine ⟨?_, ?_, ?_, ?_, by decide, by decide, by rfl, by decide⟩
  · intro config
    rcases config with ⟨cid, ctype, ctext⟩
    simp only [validateButton, buttonSpecRejects, MAX_ID_LENGTH, MAX_TEXT_LENGTH,
      VALID_BUTTON_TYPES, TYPES_WITH_REQUIRED_TEXT]
    by_cases h1 : (cid.getD "").length > 64
    · simp [h1, Except.isOk, Except.toBool]
    · cases ctype with
      | none => simp [h1, Except.isOk, Except.toBool]
      | some t =>
          by_cases h3 : t ∈ (["default", "ok", "close", "cancel", "destructive"] : List String)
          · by_cases h4 : t ∈ (["default", "destructive"] : List String)
            · by_cases h5 : (trimJS (ctext.getD "")).length = 0
              · simp [h1, h3, h4, h5, Except.isOk, Except.toBool]
              · by_cases h6 : (trimJS (ctext.getD "")).length > 64
                · simp [h1, h3, h4, h5, h6, Except.isOk, Except.toBool]
                · simp [h1, h3, h4, h5, h6, Except.isOk, Except.toBool]
            · simp [h1, h3, h4, Except.isOk, Except.toBool]
          · simp [h1, h3, Except.isOk, Except.toBool]
  · intro config b hok hreq
    rcases config with ⟨cid, ctype, ctext⟩
    unfold validateButton at hok
    by_cases h1 : (cid.getD "").length > MAX_ID_LENGTH
    · simp [h1] at hok
    · cases ctype with
      | none => simp [h1] at hok
      | some t =>
          by_cases h3 : t ∈ VALID_BUTTON_TYPES
          · by_cases h4 : t ∈ TYPES_WITH_REQUIRED_TEXT
            · by_cases h5 : (trimJS (ctext.getD "")).length = 0
              · simp [h1, h3, h4, h5] at hok
              · by_cases h6 : (trimJS (ctext.getD "")).length > MAX_TEXT_LENGTH
                · simp [h1, h3, h4, h5, h6] at hok
                · simp [h1, h3, h4, h5, h6] at hok
                  subst hok
                  exact absurd h4 hreq
            · simp [h1, h3, h4] at hok
              subst hok
              rfl
          · simp [h1, h3] at hok
  · intro config h1
    unfold validateButton
    simp [h1]
  · intro config t hty hnotin h1
    unfold validateButton
    simp [h1, hty, hnotin]

/-- Witness for `popup_button_validator`: a `close` button keeps no text, an
over-long id fails with the id error even alongside a bogus type, and a
bogus type with a valid id fails with the type error. -/
theorem popup_button_validator_witness :
    validateButton ⟨some "b", some "close", some "zz"⟩ = .ok ⟨"b", "close", none⟩ ∧
    (⟨"b", "close", none⟩ : EventPopupButton).text = none ∧
    validateButton ⟨some ⟨List.replicate 70 'a'⟩, some "bogus", none⟩ =
      .error (.popupParamInvalid "button id is too long") ∧
    validateButton ⟨some "b", some "bogus", none⟩ =
      .error (.popupParamInvalid "button type is invalid") := by
  refine ⟨by rfl, ?_, ?_, ?_⟩
  · exact popup_button_validator.2.1 ⟨some "b", some "close", some "zz"⟩ ⟨"b", "close", none⟩
      (by rfl) (by decide)
  · exact popup_button_validator.2.2.1 ⟨some ⟨List.replicate 70 'a'⟩, some "bogus", none⟩
      (by decide)
  · exact popup_button_validator.2.2.2.1 ⟨some "b", some "bogus", none⟩ "bogus" rfl
      (by decide) (by decide)

/-- C2. `showConfirm` close semantics: whenever `showConfirm` succeeds in
opening the popup, its cancel button was constructed with the empty-string
id; an inbound `popup_closed` with `button_id = ""` closes the popup
without invoking the stored callback while still firing the `popupClosed`
application event with `button_id = ""`; and an inbound `popup_closed` with
`button_id = "ok"` invokes the stored callback with `"ok"`, which
`popupCallback` translates to `cb(true)` for the consumer callback. -/
theorem show_confirm_cancel_semantics :
    ∀ (version genId message : String) (popup : PopupState Unit),
      (showConfirm version genId message popup).error = none →
      validateButton ⟨some "", some "cancel", none⟩ = .ok ⟨"", "cancel", none⟩ ∧
      (onPopupClosed (showConfirm version genId message popup).popup (some "")).popup.isOpened
        = false ∧
      (onPopupClosed (showConfirm version genId message popup).popup (some "")).invoked
        = none ∧
      (onPopupClosed (showConfirm version genId message popup).popup (some "")).fired
        = some (some "") ∧
      (onPopupClosed (showConfirm version genId message popup).popup (some "ok")).invoked
        = some ((), "ok") ∧
      confirmCallbackArg "ok" = true := by
  intro version genId message popup herr
  have hsc : showConfirm version genId message popup
      = showPopup version genId
          ⟨none, some message,
            some [⟨some "ok", some "ok", none⟩, ⟨some "", some "cancel", none⟩]⟩
          (some ()) popup := rfl
  rw [hsc] at herr ⊢
  unfold showPopup at herr ⊢
  by_cases hv : isSuitableTo version "6.2" = false
  · rw [if_pos hv] at herr
    simp at herr
  · rw [if_neg hv] at herr ⊢
    by_cases hop : popup.isOpened
    · rw [if_pos hop] at herr
      simp at herr
    · rw [if_neg hop] at herr ⊢
      rw [if_neg (by simp [showPopupNullGuard, jsTypeof])] at herr ⊢
      cases hpo : popupOpen genId
          ⟨none, some message,
            some [⟨some "ok", some "ok", none⟩, ⟨some "", some "cancel", none⟩]⟩
          (some ()) popup with
      | mk st' err =>
          rw [hpo] at herr
          cases err with
          | some e => exact Option.noConfusion herr
          | none =>
              have hfields := popupOpen_ok_opened genId
                ⟨none, some message,
                  some [⟨some "ok", some "ok", none⟩, ⟨some "", some "cancel", none⟩]⟩
                () popup st' (by simp [hop]) hpo
              refine ⟨rfl, ?_, ?_, ?_, ?_, rfl⟩ <;>
                simp [onPopupClosed, jsTruthyStr, hfields.1, hfields.2, popupClose,
                  createInitialState]

/-- Witness for `show_confirm_cancel_semantics` at version `"6.2"` on a fresh
popup: cancel skips the callback, `"ok"` invokes it. -/
theorem show_confirm_cancel_semantics_witness :
    (onPopupClosed (showConfirm "6.2" "v" "hi" (createInitialState (α := Unit))).popup
        (some "")).invoked = none ∧
    (onPopupClosed (showConfirm "6.2" "v" "hi" (createInitialState (α := Unit))).popup
        (some "ok")).invoked = some ((), "ok") := by
  have h := show_confirm_cancel_semantics "6.2" "v" "hi" createInitialState (by decide)
  exact ⟨h.2.2.1, h.2.2.2.2.1⟩

/-- C7. Pending-response handling is ignore-on-unknown and exactly-once: an
inbound `invoice_closed`/`clipboard_text_received` whose slug/id is unknown
is ignored (state unchanged, no callback, no event); a known id is consumed
(entry removed, callback handed the payload) and the entry is gone
afterwards; delivering the same response twice can invoke a callback at most
on the first delivery — the second is always ignored. -/
theorem pending_response_exactly_once :
    (∀ (α : Type) (invoices : List (String × InvoiceEntry α)) (s status : String),
        mapHas invoices s = false →
        onInvoiceClosed invoices (some s) status = ⟨invoices, none, none⟩) ∧
    (∀ (α : Type) (invoices : List (String × InvoiceEntry α)) (s status : String)
        (entry : InvoiceEntry α),
        s ≠ "" → mapGet invoices s = some entry →
        (onInvoiceClosed invoices (some s) status).invoked
          = entry.callback.map (fun cb => (cb, status)) ∧
        mapHas (onInvoiceClosed invoices (some s) status).invoices s = false) ∧
    (∀ (α : Type) (invoices : List (String × InvoiceEntry α)) (s status status2 : String),
        (onInvoiceClosed (onInvoiceClosed invoices (some s) status).invoices
            (some s) status2).invoked = none) ∧
    (∀ (α : Type) (requests : List (String × Option α)) (id : String) (data : Option String),
        mapHas requests id = false →
        onClipboardTextReceived requests (some id) data = ⟨requests, none, none⟩) ∧
    (∀ (α : Type) (requests : List (String × Option α)) (id : String) (d d2 : Option String),
        (onClipboardTextReceived (onClipboardTextReceived requests (some id) d).requests
            (some id) d2).invoked = none) := by
  refine ⟨?_, ?_, ?_, ?_, ?_⟩
  · intro α invoices s status hh
    rw [onInvoiceClosed_some]
    by_cases hs : s = ""
    · rw [if_pos hs]
    · rw [if_neg hs, if_pos hh]
  · intro α invoices s status entry hs hget
    have hh : mapHas invoices s = true := mapHas_of_mapGet hget
    rw [onInvoiceClosed_some, if_neg hs, if_neg (by simp [hh]), hget]
    exact ⟨rfl, mapHas_remove invoices s⟩
  · intro α invoices s status status2
    simp only [onInvoiceClosed_some]
    by_cases hs : s = ""
    · simp [hs]
    · by_cases hh : mapHas invoices s = false
      · simp [hs, hh]
      · cases hget : mapGet invoices s with
        | none => simp [hs, hh, hget]
        | some entry => simp [hs, hh, hget, mapHas_remove]
  · intro α requests id data hh
    rw [onClipboardTextReceived_some]
    by_cases hs : id = ""
    · rw [if_pos hs]
    · rw [if_neg hs, if_pos hh]
  · intro α requests id d d2
    simp only [onClipboardTextReceived_some]
    by_cases hs : id = ""
    · simp [hs]
    · by_cases hh : mapHas requests id = false
      · simp [hs, hh]
      · simp [hs, hh, mapHas_remove]

/-- Witness for `pending_response_exactly_once` on concrete registries: an
unknown slug is ignored; a known slug's callback fires on the first
delivery and a second delivery of the same slug invokes nothing. -/
theorem pending_response_exactly_once_witness :
    onInvoiceClosed ([] : List (String × InvoiceEntry Unit)) (some "x") "paid"
      = ⟨[], none, none⟩ ∧
    (onInvoiceClosed [("abc", ⟨⟨"https:", "t.me", "/$abc"⟩, some ()⟩)]
        (some "abc") "paid").invoked = some ((), "paid") ∧
    (onInvoiceClosed (onInvoiceClosed
          [("abc", (⟨⟨"https:", "t.me", "/$abc"⟩, some ()⟩ : InvoiceEntry Unit))]
          (some "abc") "paid").invoices (some "abc") "failed").invoked = none ∧
    onClipboardTextReceived ([] : List (String × Option Unit)) (some "r1") (some "txt")
      = ⟨[], none, none⟩ ∧
    (onClipboardTextReceived (onClipboardTextReceived [("r1", some ())]
          (some "r1") (some "txt")).requests (some "r1") none).invoked = none := by
  refine ⟨?_, ?_, ?_, ?_, ?_⟩
  · exact pending_response_exactly_once.1 Unit [] "x" "paid" rfl
  · have h := (pending_response_exactly_once.2.1 Unit
      [("abc", ⟨⟨"https:", "t.me", "/$abc"⟩, some ()⟩)] "abc" "paid"
      ⟨⟨"https:", "t.me", "/$abc"⟩, some ()⟩ (by decide) (by rfl)).1
    simpa using h
  · exact pending_response_exactly_once.2.2.1 Unit
      [("abc", ⟨⟨"https:", "t.me", "/$abc"⟩, some ()⟩)] "abc" "paid" "failed"
  · exact pending_response_exactly_once.2.2.2.1 Unit [] "r1" (some "txt") rfl
  · exact pending_response_exactly_once.2.2.2.2 Unit [("r1", some ())] "r1"
      (some "txt") none

/-- C8 (code bug): `TelegramWebApp.openInvoice` does **not** re-check the
6.1 version gate — at version `"6.0"` with the valid invoice url
`https://t.me/$abc` it registers the slug and posts `web_app_open_invoice`
without raising, even though `versionAtLeast "6.0" "6.1"` is false; the
legacy `WebApp.ts` `openInvoice` at the same input raises
`MethodUnsupported` and posts nothing, which is what the spec demands. -/
theorem open_invoice_missing_version_gate :
    (telegramOpenInvoice "6.0" ([] : List (String × InvoiceEntry Unit))
        ⟨"https:", "t.me", "/$abc"⟩ (some ())).posted = some "abc" ∧
    (telegramOpenInvoice "6.0" ([] : List (String × InvoiceEntry Unit))
        ⟨"https:", "t.me", "/$abc"⟩ (some ())).error = none ∧
    mapHas (telegramOpenInvoice "6.0" ([] : List (String × InvoiceEntry Unit))
        ⟨"https:", "t.me", "/$abc"⟩ (some ())).invoices "abc" = true ∧
    versionAtLeast "6.0" "6.1" = false ∧
    (webAppOpenInvoice "6.0" ([] : List (String × InvoiceEntry Unit))
        ⟨"https:", "t.me", "/$abc"⟩ (some ())).posted = none ∧
    (webAppOpenInvoice "6.0" ([] : List (String × InvoiceEntry Unit))
        ⟨"https:", "t.me", "/$abc"⟩ (some ())).error
      = some (.methodUnsupported "openInvoice" "6.0") ∧
    (webAppOpenInvoice "6.0" ([] : List (String × InvoiceEntry Unit))
        ⟨"https:", "t.me", "/$abc"⟩ (some ())).invoices = [] := by decide

/-- C9. The null-params guard of `showPopup`,
`typeof params !== 'object' && params === null`, is unreachable: since
`typeof null` is `"object"`, the conjunction is false for every JavaScript
value, so `showPopup(null)` passes that check and proceeds to
`Popup.open`. -/
theorem show_popup_null_guard_unreachable :
    (∀ params : JSValue, showPopupNullGuard params = false) ∧
    showPopupNullGuard JSValue.nullValue = false ∧
    jsTypeof JSValue.nullValue = "object" := by
  refine ⟨?_, rfl, rfl⟩
  intro params
  cases params <;> rfl

set_option maxRecDepth 4096 in
/-- C10 counterexample: for the 257-character query, `switchInlineQuery`
with chat types omitted raises the query-length error, not the
invalid-chat-types error — refuting "for every query string". -/
theorem switch_inline_query_chat_types_counterexample :
    (switchInlineQuery "6.7" true ⟨List.replicate 257 'x'⟩ none).error
      = some WebAppError.inlineQueryInvalid ∧
    (switchInlineQuery "6.7" true ⟨List.replicate 257 'x'⟩ none).error
      ≠ some WebAppError.chooseChatTypesInvalid ∧
    (switchInlineQuery "6.7" true ⟨List.replicate 257 'x'⟩ none).posted = none := by decide

/-- C10 (amended): with version ≥ 6.7, inline mode enabled, **and a query
whose trimmed length is at most 256**, calling `switchInlineQuery` with
`chatTypesToChoose` omitted/null/undefined (`none`) raises the
invalid-chat-types error and posts nothing — the nullable parameter is
effectively mandatory; and with an array of valid chat types supplied the
posted `chat_types` are deduplicated (first occurrences, in order). -/
theorem switch_inline_query_chat_types :
    (∀ (version query : String),
        isSuitableTo version "6.7" = true →
        (trimJS query).length ≤ 256 →
        switchInlineQuery version true query none
          = ⟨none, some .chooseChatTypesInvalid⟩) ∧
    (∀ (version query : String) (l : List String),
        isSuitableTo version "6.7" = true →
        (trimJS query).length ≤ 256 →
        ((dedupFirst l).all fun c => VALID_CHAT_TYPES.contains c) = true →
        switchInlineQuery version true query (some l)
          = ⟨some (trimJS query, dedupFirst l), none⟩) := by
  constructor
  · intro version query hv hq
    simp only [switchInlineQuery]
    rw [if_neg (by simp [hv]), if_neg (by simp),
      if_neg (by simp only [MAX_INLINE_QUERY_LENGTH]; omega),
      if_pos (show (none : Option (List String)).isSome = false from rfl)]
  · intro version query l hv hq hall
    simp only [switchInlineQuery, Option.getD_some]
    have hcond : ¬ (((dedupFirst l).all fun chat => VALID_CHAT_TYPES.contains chat) = false) := by
      intro hc
      rw [hall] at hc
      exact Bool.noConfusion hc
    rw [if_neg (by simp [hv]), if_neg (by simp),
      if_neg (by simp only [MAX_INLINE_QUERY_LENGTH]; omega), if_neg (by simp),
      if_neg hcond]

/-- Witness for `switch_inline_query_chat_types`: `"hello"` with omitted
chat types fails with the invalid-chat-types error; with
`["users","bots","users"]` it posts `["users","bots"]`. -/
theorem switch_inline_query_chat_types_witness :
    switchInlineQuery "6.7" true "hello" none = ⟨none, some .chooseChatTypesInvalid⟩ ∧
    switchInlineQuery "6.7" true "hello" (some ["users", "bots", "users"])
      = ⟨some ("hello", ["users", "bots"]), none⟩ := by
  constructor
  · exact switch_inline_query_chat_types.1 "6.7" "hello" (by decide) (by decide)
  · have h := switch_inline_query_chat_types.2 "6.7" "hello" ["users", "bots", "users"]
      (by decide) (by decide) (by decide)
    simpa [show trimJS "hello" = "hello" from by decide,
      show dedupFirst ["users", "bots", "users"] = ["users", "bots"] from by decide] using h

end Claims
